import Mathlib

/-!
Shallow embedding of the playbook PDF rendering pipeline of
`src/lib/playbook-pdf.tsx` (metodic-education).

The renderer takes a `PlaybookPdfData` record and assembles a paginated
document: a cover page, an executive-summary page, a design-principles page,
one page per intervention step, an implementation-roadmap page and a final
CTA/sources page.  TypeScript optional / nullable string fields are embedded
as `Option String`; JavaScript truthiness on strings ("" is falsy) is made
explicit through `strTruthy` / `orElseStr`.  The two impure render-time
reads of the source — the generation date (`new Date().toLocaleDateString`)
and the logo asset (`fs.readFileSync` inside `getLogoDataUri`) — are
threaded through an explicit `RenderEnv`.
-/

namespace PlaybookPdf

-- ── Data model (the exported interfaces of playbook-pdf.tsx) ──────────────

/-- `PlaybookStep` of the source: one intervention step of the sequence. -/
structure PlaybookStep where
  order : Int
  title : String
  phase : Option String
  time_window : Option String
  intervention_duration : Option String
  owner : Option String
  success_signal : Option String
  challenge_title : Option String
  method_name : Option String
  intervention : String
  script_template : String
  deriving DecidableEq

/-- One entry of `ExtendedPrintableContent.detailed_steps`. -/
structure DetailedStep where
  step_order : Option Int
  objective : Option String
  deep_explanation : Option String
  facilitator_guidance : Option String
  practical_example : Option String
  risks_and_mitigations : Option String
  success_metrics : Option String
  deriving DecidableEq

/-- `challenge_analysis` substructure of the extended content. -/
structure ChallengeAnalysis where
  context : Option String
  symptoms : Option (List String)
  root_causes : Option (List String)
  stakes : Option String
  deriving DecidableEq

/-- One entry of `theory_foundations`. -/
structure TheoryFoundation where
  concept : Option String
  explanation : Option String
  application : Option String
  deriving DecidableEq

/-- `implementation_roadmap` substructure of the extended content. -/
structure ImplementationRoadmap where
  first_30_days : Option (List String)
  days_31_60 : Option (List String)
  days_61_90 : Option (List String)
  governance_and_review : Option String
  deriving DecidableEq

/-- `final_metodic_cta` substructure of the extended content. -/
structure FinalMetodicCta where
  why_metodic : Option String
  benefits : Option (List String)
  deriving DecidableEq

/-- One entry of `sources`. -/
structure SourceEntry where
  title : Option String
  url : Option String
  publisher : Option String
  relevance_note : Option String
  deriving DecidableEq

/-- `ExtendedPrintableContent` of the source (fully optional substructure). -/
structure ExtendedPrintableContent where
  title : Option String
  subtitle : Option String
  executive_summary : Option String
  challenge_analysis : Option ChallengeAnalysis
  theory_foundations : Option (List TheoryFoundation)
  detailed_steps : Option (List DetailedStep)
  implementation_roadmap : Option ImplementationRoadmap
  final_metodic_cta : Option FinalMetodicCta
  sources : Option (List SourceEntry)
  deriving DecidableEq

/-- `generated_from` substructure of the record. -/
structure GeneratedFrom where
  transformation_horizon : Option String
  cadence : Option String
  review_checkpoint : Option String
  deriving DecidableEq

/-- `PlaybookPdfData` of the source: the full input record. -/
structure PlaybookPdfData where
  slug : String
  title : String
  category : String
  organizational_challenge : String
  summary : Option String
  target_audience : Option String
  estimated_duration : Option String
  sequence : List PlaybookStep
  extended_printable : Option ExtendedPrintableContent
  generated_from : Option GeneratedFrom
  deriving DecidableEq

-- ── Render-time environment ──────────────────────────────────────────────

/-- The impure inputs `PlaybookPdfDocument` reads besides the record:
the formatted generation date (from the wall clock) and the result of the
logo-file read (`none` models a failed `fs.readFileSync`, `some b` a
successful read with base64 payload `b`). -/
structure RenderEnv where
  generatedOn : String
  logoFile : Option String
  deriving DecidableEq

/-- `getLogoDataUri` of the source: base64 data URI of the logo file read
from disk, falling back to a remote URL when the read throws. -/
def getLogoDataUri (logoFile : Option String) : String :=
  match logoFile with
  | some b64 => "data:image/png;base64," ++ b64
  | none => "https://metodic.io/metodic-logo.png"

-- ── JS string truthiness ─────────────────────────────────────────────────

/-- JavaScript truthiness of an optional string: `undefined`, `null` and
`""` are falsy, every other string is truthy. -/
def strTruthy : Option String → Bool
  | none => false
  | some sv => sv != ""

/-- JavaScript `v || fb` on an optional string `v`. -/
def orElseStr (v : Option String) (fb : String) : String :=
  if strTruthy v then v.getD "" else fb

-- ── Helpers of the source ────────────────────────────────────────────────

/-- Split a character list at whitespace into maximal non-whitespace
words (the segments of `/\s+/` splitting, empty segments removed). -/
def wsWords (l : List Char) : List (List Char) :=
  (l.foldr
    (fun c acc =>
      if c.isWhitespace then [] :: acc
      else
        match acc with
        | [] => [[c]]
        | w :: ws => (c :: w) :: ws)
    []).filter (fun w => !w.isEmpty)

/-- Join words with single spaces. -/
def joinWords : List (List Char) → List Char
  | [] => []
  | [w] => w
  | w :: ws => w ++ ' ' :: joinWords ws

/-- The effect of `value.replace(/\s+/g, ' ').trim()`: runs of whitespace
collapse to one space and outer whitespace is removed. -/
def collapseWs (sv : String) : String :=
  String.mk (joinWords (wsWords sv.data))

/-- `txt` of the source: normalize an optional free-text value and fall
back when the normalized value is empty. -/
def txt (value : Option String) (fallback : String) : String :=
  let clean := collapseWs (value.getD "")
  if clean == "" then fallback else clean

/-- `phaseOf` of the source: the step phase when truthy, otherwise a
positional default keyed on the step's array index. -/
def phaseOf (step : PlaybookStep) (index : Nat) : String :=
  if strTruthy step.phase then step.phase.getD ""
  else if index == 0 then "Diagnose"
  else if index == 1 then "Align"
  else if index == 2 then "Pilot"
  else "Embed"

/-- `bullets` of the source, reduced to the list of rendered item texts:
the given items when non-empty, the fallback list otherwise. -/
def bulletsList (items : Option (List String)) (fallback : List String) : List String :=
  match items with
  | some l => if l.length > 0 then l else fallback
  | none => fallback

-- ── Topic icons ──────────────────────────────────────────────────────────

/-- SVG path of the compass icon, `TOPIC_ICONS.default` of the source. -/
def compassIcon : String :=
  "M12 2a10 10 0 1 0 0 20 10 10 0 0 0 0-20Zm0 18a8 8 0 1 1 0-16 8 8 0 0 1 0 16Zm-1.5-5.5 5-2.5-2.5-5-5 2.5ZM12 11a1 1 0 1 0 0 2 1 1 0 0 0 0-2Z"

/-- SVG path of the users icon, `TOPIC_ICONS.collaboration` of the source. -/
def collaborationIcon : String :=
  "M16 21v-2a4 4 0 0 0-4-4H6a4 4 0 0 0-4 4v2M9 11a4 4 0 1 0 0-8 4 4 0 0 0 0 8ZM22 21v-2a4 4 0 0 0-3-3.87M16 3.13a4 4 0 0 1 0 7.75"

/-- SVG path of the target icon, shared by the `decision-making` and
`alignment` entries of the source table. -/
def targetIcon : String :=
  "M12 2a10 10 0 1 0 0 20 10 10 0 0 0 0-20Zm0 16a6 6 0 1 1 0-12 6 6 0 0 1 0 12Zm0-8a2 2 0 1 0 0 4 2 2 0 0 0 0-4Z"

/-- SVG path of the activity icon, shared by the `meetings` and
`engagement` entries of the source table. -/
def activityIcon : String :=
  "M22 12h-4l-3 9L9 3l-3 9H2"

/-- SVG path of the book-open icon, shared by the `learning` and
`onboarding` entries of the source table. -/
def bookOpenIcon : String :=
  "M2 3h6a4 4 0 0 1 4 4v14a3 3 0 0 0-3-3H2ZM22 3h-6a4 4 0 0 0-4 4v14a3 3 0 0 1 3-3h7Z"

/-- `TOPIC_ICONS` of the source as the ordered association list that
`Object.entries` iterates (JS objects preserve string-key insertion
order). -/
def TOPIC_ICONS : List (String × String) :=
  [ ("default", compassIcon),
    ("collaboration", collaborationIcon),
    ("strategy", "M22 7l-8.5 8.5-5-5L2 17M22 7h-6M22 7v6"),
    ("trust", "M12 22s8-4 8-10V5l-8-3-8 3v7c0 6 8 10 8 10Z"),
    ("communication", "M21 11.5a8.38 8.38 0 0 1-.9 3.8 8.5 8.5 0 0 1-7.6 4.7 8.38 8.38 0 0 1-3.8-.9L3 21l1.9-5.7a8.38 8.38 0 0 1-.9-3.8 8.5 8.5 0 0 1 4.7-7.6 8.38 8.38 0 0 1 3.8-.9h.5a8.48 8.48 0 0 1 8 8v.5Z"),
    ("innovation", "M9 18h6M10 22h4M12 2a7 7 0 0 0-4 12.7V17h8v-2.3A7 7 0 0 0 12 2Z"),
    ("decision-making", targetIcon),
    ("alignment", targetIcon),
    ("change management", "M1 4v6h6M23 20v-6h-6M20.49 9A9 9 0 0 0 5.64 5.64L1 10m22 4l-4.64 4.36A9 9 0 0 1 3.51 15"),
    ("meetings", activityIcon),
    ("engagement", activityIcon),
    ("learning", bookOpenIcon),
    ("onboarding", bookOpenIcon) ]

/-- Whether `needle` occurs as a contiguous segment of `hay`. -/
def charsContain (needle : List Char) : List Char → Bool
  | [] => needle.isEmpty
  | c :: rest => needle.isPrefixOf (c :: rest) || charsContain needle rest

/-- `key.includes(k)` of the source: substring containment. -/
def stringIncludes (hay needle : String) : Bool :=
  charsContain needle.data hay.data

/-- `category.toLowerCase()`: ASCII lower-casing, character-wise. -/
def jsToLower (sv : String) : String :=
  String.mk (sv.data.map Char.toLower)

/-- `key.trim()`: remove leading and trailing whitespace. -/
def jsTrim (sv : String) : String :=
  String.mk (((sv.data.dropWhile Char.isWhitespace).reverse.dropWhile Char.isWhitespace).reverse)

/-- `pickIcon` of the source: lower-case and trim the category, scan the
ordered icon table for the first contained keyword, default to the
compass icon. -/
def pickIcon (category : String) : String :=
  let key := jsTrim (jsToLower category)
  match TOPIC_ICONS.find? (fun kv => stringIncludes key kv.1) with
  | some kv => kv.2
  | none => compassIcon

-- ── Rendered page model ──────────────────────────────────────────────────
-- The JSX tree of `PlaybookPdfDocument` is embedded as the structured text
-- content it displays, page by page, in document order.

/-- The cover page (source lines 537-592). -/
structure CoverPage where
  badge : String
  iconPath : String
  title : String
  subtitle : String
  chips : List String
  audience : String
  interventions : Nat
  review_checkpoint : String
  generated : String
  footer : String
  deriving DecidableEq

/-- The executive-summary page (source lines 595-640).  `stakes` is `none`
when the "Why It Matters" block is not rendered. -/
structure SummaryPage where
  executive_summary : String
  context : String
  symptoms : List String
  root_causes : List String
  stakes : Option String
  deriving DecidableEq

/-- One principle card of the design-principles page (source lines
671-682).  `application` is `none` when the "Application:" line is not
rendered. -/
structure PrincipleCard where
  heading : String
  explanation : String
  application : Option String
  deriving DecidableEq

/-- The "Execution Guidance" column of a step page (source lines 735-756):
either the example/risks pair, or the two fixed preparation sentences. -/
inductive ExecGuidance where
  | withExample (ex : String) (risks : String)
  | generic
  deriving DecidableEq

/-- One intervention-step page (source lines 686-781). -/
structure StepPage where
  sectionLabel : String
  title : String
  phaseLabel : String
  timing : String
  duration : String
  owner : String
  goal : String
  script : String
  guidance : ExecGuidance
  challenge : String
  method : String
  success : String
  deriving DecidableEq

/-- The implementation-roadmap page (source lines 785-821). -/
structure RoadmapPage where
  first_30 : List String
  d31_60 : List String
  d61_90 : List String
  governance : Option String
  deriving DecidableEq

/-- The final CTA/sources page (source lines 824-887).  `sources` is `none`
when the sources block (the "Research Sources" heading plus entries) is
not rendered, and otherwise carries the rendered entry lines. -/
structure FinalPage where
  cta_why : String
  benefits : List String
  sources : Option (List String)
  deriving DecidableEq

/-- One page of the assembled document. -/
inductive PdfPage where
  | cover (p : CoverPage)
  | summary (p : SummaryPage)
  | principles (cards : List PrincipleCard)
  | step (p : StepPage)
  | roadmap (p : RoadmapPage)
  | final (p : FinalPage)
  deriving DecidableEq

/-- The assembled document: metadata title, the logo URI used by every
page header, and the pages in order. -/
structure PdfDocument where
  title : String
  logoUri : String
  pages : List PdfPage
  deriving DecidableEq

-- ── Page builders ────────────────────────────────────────────────────────

/-- `index`-aware map, embedding `Array.prototype.map` over the sequence. -/
def mapWithIndexFrom (f : Nat → α → β) : Nat → List α → List β
  | _, [] => []
  | i, a :: as => f i a :: mapWithIndexFrom f (i + 1) as

/-- Map a function receiving the 0-based index over a list. -/
def mapWithIndex (f : Nat → α → β) (l : List α) : List β :=
  mapWithIndexFrom f 0 l

/-- The cover page builder (source lines 537-592). -/
def mkCover (env : RenderEnv) (playbook : PlaybookPdfData)
    (ext : Option ExtendedPrintableContent) : CoverPage :=
  { badge := "Extended Playbook"
    iconPath := pickIcon playbook.category
    title := txt (ext.bind (fun e => e.title)) playbook.title
    subtitle := txt (ext.bind (fun e => e.subtitle))
      (orElseStr playbook.summary playbook.organizational_challenge)
    chips :=
      [ playbook.category,
        txt (playbook.generated_from.bind (fun g => g.transformation_horizon)) "6-10 weeks",
        txt (playbook.generated_from.bind (fun g => g.cadence)) "weekly cadence",
        txt playbook.estimated_duration "45-90 min per session" ]
    audience := txt playbook.target_audience "Leaders and facilitators"
    interventions := playbook.sequence.length
    review_checkpoint := txt (playbook.generated_from.bind (fun g => g.review_checkpoint)) "Week 4"
    generated := env.generatedOn
    footer := "Made with Metodic" }

/-- The executive-summary page builder (source lines 595-640). -/
def mkSummary (playbook : PlaybookPdfData)
    (ext : Option ExtendedPrintableContent) : SummaryPage :=
  let ca := ext.bind (fun e => e.challenge_analysis)
  { executive_summary := txt (ext.bind (fun e => e.executive_summary))
      "This playbook provides a multi-phase transformation sequence. It combines concrete interventions, facilitation scripts, clear ownership, and success signals so teams can move from diagnosis to embedded behavior change."
    context := txt (ca.bind (fun c => c.context)) playbook.organizational_challenge
    symptoms := bulletsList (ca.bind (fun c => c.symptoms))
      [ "Low alignment across teams",
        "Repeated decision loops",
        "Action follow-through gaps" ]
    root_causes := bulletsList (ca.bind (fun c => c.root_causes))
      [ "Unclear decision rights",
        "Weak meeting structures",
        "Inconsistent accountability" ]
    stakes :=
      if strTruthy (ca.bind (fun c => c.stakes)) then ca.bind (fun c => c.stakes)
      else none }

/-- The fixed default principle set of the source (lines 651-670). -/
def defaultFoundations : List TheoryFoundation :=
  [ { concept := some "Sequence over single event",
      explanation := some "Change quality improves when interventions are staged and reinforced over time rather than attempted in a single workshop.",
      application := some "Build rhythm and checkpointing into every playbook." },
    { concept := some "Role clarity",
      explanation := some "Named ownership prevents drift and ambiguity after each session.",
      application := some "Assign a responsible owner to every intervention step." },
    { concept := some "Observable signals",
      explanation := some "Teams sustain change when progress is visible and measurable.",
      application := some "Define one success indicator per phase." } ]

/-- One principle card (source lines 671-682). -/
def mkPrincipleCard (idx : Nat) (item : TheoryFoundation) : PrincipleCard :=
  { heading := txt item.concept ("Principle " ++ toString (idx + 1))
    explanation := txt item.explanation ""
    application := if strTruthy item.application then item.application else none }

/-- The design-principles page builder (source lines 643-683). -/
def mkPrinciples (ext : Option ExtendedPrintableContent) : List PrincipleCard :=
  let foundations :=
    match ext.bind (fun e => e.theory_foundations) with
    | some l => if l.length > 0 then l else defaultFoundations
    | none => defaultFoundations
  mapWithIndex mkPrincipleCard foundations

/-- The step-detail lookup of the source (line 687):
`ext?.detailed_steps?.find((d) => d.step_order === step.order)`. -/
def lookupDetail (ext : Option ExtendedPrintableContent)
    (step : PlaybookStep) : Option DetailedStep :=
  (ext.bind (fun e => e.detailed_steps)).bind
    (List.find? (fun d => d.step_order == some step.order))

/-- One step page rendered from an already-resolved detail (source lines
689-780). -/
def mkStepPageCore (playbook : PlaybookPdfData) (detail : Option DetailedStep)
    (step : PlaybookStep) (index : Nat) : StepPage :=
  { sectionLabel := "Step " ++ toString (index + 1) ++ " of " ++ toString playbook.sequence.length
    title := txt (detail.bind (fun d => d.objective)) step.title
    phaseLabel := phaseOf step index
    timing := txt step.time_window ("Week " ++ toString (index + 1))
    duration := txt step.intervention_duration (orElseStr playbook.estimated_duration "45-90 min")
    owner := txt step.owner "Session lead"
    goal := txt (detail.bind (fun d => d.deep_explanation)) step.intervention
    script := txt (detail.bind (fun d => d.facilitator_guidance)) step.script_template
    guidance :=
      if strTruthy (detail.bind (fun d => d.practical_example)) then
        ExecGuidance.withExample ((detail.bind (fun d => d.practical_example)).getD "")
          (txt (detail.bind (fun d => d.risks_and_mitigations))
            "Track blockers immediately and assign one mitigation owner.")
      else ExecGuidance.generic
    challenge := txt step.challenge_title "Related challenge"
    method := txt step.method_name "Context-specific method"
    success := txt (detail.bind (fun d => d.success_metrics))
      (orElseStr step.success_signal "Observable progress in decision quality and follow-through.") }

/-- One step page (source lines 686-781): resolve the detail by
`step_order`, then render. -/
def mkStepPage (playbook : PlaybookPdfData) (ext : Option ExtendedPrintableContent)
    (step : PlaybookStep) (index : Nat) : StepPage :=
  mkStepPageCore playbook (lookupDetail ext step) step index

/-- The implementation-roadmap page builder (source lines 785-821). -/
def mkRoadmap (ext : Option ExtendedPrintableContent) : RoadmapPage :=
  let ir := ext.bind (fun e => e.implementation_roadmap)
  { first_30 := bulletsList (ir.bind (fun r => r.first_30_days))
      [ "Define the playbook owner and facilitation support roles.",
        "Schedule all interventions with a clear cadence." ]
    d31_60 := bulletsList (ir.bind (fun r => r.days_31_60))
      [ "Track success signals per intervention and resolve blockers quickly." ]
    d61_90 := bulletsList (ir.bind (fun r => r.days_61_90))
      [ "Run checkpoint review and adapt the next intervention cycle." ]
    governance :=
      if strTruthy (ir.bind (fun r => r.governance_and_review)) then
        ir.bind (fun r => r.governance_and_review)
      else none }

/-- One rendered source line (source lines 855-864). -/
def renderSource (src : SourceEntry) : String :=
  "• " ++ txt src.title (orElseStr src.publisher "Source") ++ ": "
    ++ txt src.url "No URL provided"
    ++ (if strTruthy src.relevance_note then " — " ++ src.relevance_note.getD "" else "")

/-- The final CTA/sources page builder (source lines 824-887). -/
def mkFinal (ext : Option ExtendedPrintableContent) : FinalPage :=
  let cta := ext.bind (fun e => e.final_metodic_cta)
  { cta_why := txt (cta.bind (fun c => c.why_metodic))
      "Use Metodic.io to convert this playbook into practical session designs, facilitation assets, and repeatable intervention workflows — faster than starting from scratch."
    benefits := bulletsList (cta.bind (fun c => c.benefits))
      [ "Design intervention sessions with proven structures and templates.",
        "Generate facilitator scripts and participant materials automatically.",
        "Standardize quality across teams, projects, and initiatives." ]
    sources :=
      match ext.bind (fun e => e.sources) with
      | some l =>
        if l.length > 0 then some ((l.take 20).map renderSource)
        else none
      | none => none }

-- ── Document assembly ────────────────────────────────────────────────────

/-- The step pages of the document, one per sequence entry, in array
order (source lines 686-782). -/
def stepPages (playbook : PlaybookPdfData)
    (ext : Option ExtendedPrintableContent) : List PdfPage :=
  mapWithIndex (fun i st => PdfPage.step (mkStepPage playbook ext st i)) playbook.sequence

/-- `PlaybookPdfDocument` of the source (lines 515-890): the full page
sequence — cover, executive summary, design principles, one page per
step, roadmap, final page. -/
def PlaybookPdfDocument (env : RenderEnv) (playbook : PlaybookPdfData) : PdfDocument :=
  let ext := playbook.extended_printable
  { title := playbook.title
    logoUri := getLogoDataUri env.logoFile
    pages :=
      PdfPage.cover (mkCover env playbook ext)
        :: PdfPage.summary (mkSummary playbook ext)
        :: PdfPage.principles (mkPrinciples ext)
        :: (stepPages playbook ext
            ++ [PdfPage.roadmap (mkRoadmap ext), PdfPage.final (mkFinal ext)]) }

-- ── Structural section headings ──────────────────────────────────────────

/-- The structural (literal, non-content-derived) section headings of a
step page, in source order. -/
def stepHeadings : List String :=
  ["Intervention Goal", "Facilitator Script", "Execution Guidance",
   "Applied Context", "Success Signal"]

/-- The heading of a conditionally rendered block: present exactly when
the block's content is. -/
def optHeading (o : Option α) (h : String) : List String :=
  match o with
  | some _ => [h]
  | none => []

/-- The structural section headings a page displays, in source order.
Content-derived headings (principle concepts, step titles) are not
listed: only the string literals of the JSX. -/
def pageHeadings : PdfPage → List String
  | PdfPage.cover _ => []
  | PdfPage.summary p =>
    ["Executive Summary", "Challenge Context", "Common Symptoms", "Root Causes"]
      ++ optHeading p.stakes "Why It Matters"
  | PdfPage.principles _ => ["Design Principles"]
  | PdfPage.step _ => stepHeadings
  | PdfPage.roadmap p =>
    ["90-Day Implementation Roadmap", "Days 1 – 30", "Days 31 – 60", "Days 61 – 90"]
      ++ optHeading p.governance "Governance and Review"
  | PdfPage.final p =>
    ["Scale This with Metodic.io", "How Metodic helps"]
      ++ optHeading p.sources "Research Sources"

/-- All structural section headings of a document, in page order. -/
def docHeadings (d : PdfDocument) : List String :=
  (d.pages.map pageHeadings).flatten

-- ── Concrete fixtures ────────────────────────────────────────────────────

/-- A minimal intervention step with every optional field absent. -/
def baseStep : PlaybookStep :=
  { order := 1
    title := "Kickoff session"
    phase := none
    time_window := none
    intervention_duration := none
    owner := none
    success_signal := none
    challenge_title := none
    method_name := none
    intervention := "Run the kickoff"
    script_template := "Welcome everyone" }

/-- A minimal record with every optional field absent and no steps. -/
def basePlaybook : PlaybookPdfData :=
  { slug := "pb"
    title := "Team Reset"
    category := "Quarterly Review"
    organizational_challenge := "Teams drift"
    summary := none
    target_audience := none
    estimated_duration := none
    sequence := []
    extended_printable := none
    generated_from := none }

/-- Extended content with every field absent. -/
def emptyExt : ExtendedPrintableContent :=
  { title := none
    subtitle := none
    executive_summary := none
    challenge_analysis := none
    theory_foundations := none
    detailed_steps := none
    implementation_roadmap := none
    final_metodic_cta := none
    sources := none }

/-- A render environment where the logo read failed. -/
def env0 : RenderEnv :=
  { generatedOn := "January 1, 2026", logoFile := none }

/-- A render environment with the same clock as `env0` but a successful
logo read. -/
def env1 : RenderEnv :=
  { generatedOn := "January 1, 2026", logoFile := some "QUJD" }

-- ── Shared lemmas ────────────────────────────────────────────────────────

theorem mapWithIndexFrom_length (f : Nat → α → β) (i : Nat) (l : List α) :
    (mapWithIndexFrom f i l).length = l.length := by
  induction l generalizing i with
  | nil => rfl
  | cons a as ih => simp [mapWithIndexFrom, ih]

theorem mem_mapWithIndexFrom (f : Nat → α → β) (i : Nat) (l : List α) (b : β)
    (hb : b ∈ mapWithIndexFrom f i l) : ∃ j a, a ∈ l ∧ b = f j a := by
  induction l generalizing i with
  | nil => simp [mapWithIndexFrom] at hb
  | cons a as ih =>
    rcases (by simpa [mapWithIndexFrom] using hb : b = f i a ∨ b ∈ mapWithIndexFrom f (i + 1) as) with h | h
    · exact ⟨i, a, by simp, h⟩
    · rcases ih _ h with ⟨j, x, hx, hbx⟩
      exact ⟨j, x, by simp [hx], hbx⟩

theorem find?_first (p : α → Bool) (pre : List α) (a : α) (post : List α)
    (hpre : ∀ x ∈ pre, p x = false) (ha : p a = true) :
    (pre ++ a :: post).find? p = some a := by
  induction pre with
  | nil => simpa using List.find?_cons_of_pos post ha
  | cons x xs ih =>
    have hx : p x = false := hpre x (by simp)
    have ihx := ih (fun y hy => hpre y (by simp [hy]))
    rw [List.cons_append, List.find?_cons_of_neg _ (by simp [hx])]
    exact ihx

theorem txt_none (fb : String) : txt none fb = fb := rfl

theorem mkFinal_sources_eq (ext : Option ExtendedPrintableContent) :
    (mkFinal ext).sources =
      match ext.bind (fun e => e.sources) with
      | some l =>
        if l.length > 0 then some ((l.take 20).map renderSource)
        else none
      | none => none := rfl

theorem optHeading_none (h : String) : optHeading (none : Option α) h = [] := rfl

theorem optHeading_some (a : α) (h : String) : optHeading (some a) h = [h] := rfl

theorem rs_notMem_cover (p : CoverPage) :
    "Research Sources" ∉ pageHeadings (PdfPage.cover p) := by
  simp [pageHeadings]

theorem rs_notMem_summary (p : SummaryPage) :
    "Research Sources" ∉ pageHeadings (PdfPage.summary p) := by
  rcases p with ⟨a, b, c, d, st⟩
  cases st <;> simp only [pageHeadings, optHeading] <;> decide

theorem rs_notMem_principles (cards : List PrincipleCard) :
    "Research Sources" ∉ pageHeadings (PdfPage.principles cards) := by
  simp only [pageHeadings]
  decide

theorem rs_notMem_roadmap (p : RoadmapPage) :
    "Research Sources" ∉ pageHeadings (PdfPage.roadmap p) := by
  rcases p with ⟨a, b, c, gov⟩
  cases gov <;> simp only [pageHeadings, optHeading] <;> decide

theorem rs_notMem_step (p : StepPage) :
    "Research Sources" ∉ pageHeadings (PdfPage.step p) := by
  simp only [pageHeadings]
  decide

theorem rs_notMem_stepPages (pb : PlaybookPdfData) (ext : Option ExtendedPrintableContent) :
    "Research Sources" ∉ ((stepPages pb ext).map pageHeadings).flatten := by
  intro h
  rw [List.mem_flatten] at h
  rcases h with ⟨l, hl, hmem⟩
  rw [List.mem_map] at hl
  rcases hl with ⟨q, hq, rfl⟩
  rcases mem_mapWithIndexFrom _ _ _ _ hq with ⟨j, a, -, rfl⟩
  exact rs_notMem_step _ hmem

theorem mem_finalHeadings_iff (ext : Option ExtendedPrintableContent) :
    ("Research Sources" ∈ pageHeadings (PdfPage.final (mkFinal ext))) ↔
      ∃ l, ext.bind (fun e => e.sources) = some l ∧ l ≠ [] := by
  rcases hsrc : ext.bind (fun e => e.sources) with _ | l
  · have hs : (mkFinal ext).sources = none := by
      rw [mkFinal_sources_eq, hsrc]
    apply iff_of_false
    · simp only [pageHeadings, hs, optHeading_none]
      decide
    · rintro ⟨l, hl, -⟩
      exact Option.noConfusion hl
  · by_cases hl : l.length > 0
    · have hs : (mkFinal ext).sources = some ((l.take 20).map renderSource) := by
        rw [mkFinal_sources_eq, hsrc]
        simp [hl]
      apply iff_of_true
      · simp only [pageHeadings, hs, optHeading_some]
        decide
      · exact ⟨l, rfl, List.ne_nil_of_length_pos hl⟩
    · have hnil : l = [] := List.length_eq_zero.mp (Nat.eq_zero_of_not_pos hl)
      subst hnil
      have hs : (mkFinal ext).sources = none := by
        rw [mkFinal_sources_eq, hsrc]
        simp
      apply iff_of_false
      · simp only [pageHeadings, hs, optHeading_none]
        decide
      · rintro ⟨l, hleq, hne⟩
        cases hleq
        exact hne rfl

theorem mem_docHeadings_research (env : RenderEnv) (pb : PlaybookPdfData) :
    ("Research Sources" ∈ docHeadings (PlaybookPdfDocument env pb)) ↔
      ∃ l, pb.extended_printable.bind (fun e => e.sources) = some l ∧ l ≠ [] := by
  rw [← mem_finalHeadings_iff pb.extended_printable]
  unfold docHeadings PlaybookPdfDocument
  simp only [List.map_cons, List.map_append, List.flatten_cons, List.flatten_append,
    List.mem_append, List.flatten_nil, List.map_nil, List.append_nil,
    List.mem_singleton, List.flatten, List.map]
  constructor
  · rintro (h | h | h | h | h | h)
    · exact absurd h (rs_notMem_cover _)
    · exact absurd h (rs_notMem_summary _)
    · exact absurd h (rs_notMem_principles _)
    · exact absurd h (rs_notMem_stepPages _ _)
    · exact absurd h (rs_notMem_roadmap _)
    · exact h
  · intro h
    exact Or.inr (Or.inr (Or.inr (Or.inr (Or.inr h))))

-- ── Claims ───────────────────────────────────────────────────────────────

/-- A detail entry keyed to step order 2. -/
def detailForOrder2 : DetailedStep :=
  { step_order := some 2
    objective := some "Map the decision flow"
    deep_explanation := some "Trace each decision end to end."
    facilitator_guidance := some "Walk the wall together."
    practical_example := some "A claims team mapped twelve handoffs."
    risks_and_mitigations := some "Scope creep; timebox the session."
    success_metrics := some "A visible map exists." }

/-- A detail entry keyed to step order 1, listed after `detailForOrder2`. -/
def detailForOrder1 : DetailedStep :=
  { step_order := some 1
    objective := some "Name the drift"
    deep_explanation := some "Surface where alignment broke."
    facilitator_guidance := some "Ask each lead to name one gap."
    practical_example := none
    risks_and_mitigations := none
    success_metrics := none }

/-- Extended content whose details are listed out of step order. -/
def extDetails : ExtendedPrintableContent :=
  { emptyExt with detailed_steps := some [detailForOrder2, detailForOrder1] }

/-- C2: the step detail on a step page is looked up by equality of the
detail's step_order with the step's order field, not by array index.
Whenever the lookup uses an entry, that entry's step_order equals the
step's order and the entry is in the list; when no entry's step_order
equals the step's order, the lookup is empty and the page title, goal
and script come from the step's base fields; and an entry preceded only
by non-matching entries is the one used, regardless of its array
position. -/
theorem C2_detail_matching (pb : PlaybookPdfData) (e : ExtendedPrintableContent)
    (ds : List DetailedStep) (st : PlaybookStep) (i : Nat)
    (hds : e.detailed_steps = some ds) :
    (∀ d, lookupDetail (some e) st = some d → d.step_order = some st.order ∧ d ∈ ds) ∧
    ((∀ d ∈ ds, d.step_order ≠ some st.order) →
      lookupDetail (some e) st = none ∧
      (mkStepPage pb (some e) st i).title = st.title ∧
      (mkStepPage pb (some e) st i).goal = st.intervention ∧
      (mkStepPage pb (some e) st i).script = st.script_template) ∧
    (∀ pre d post, ds = pre ++ d :: post → d.step_order = some st.order →
      (∀ x ∈ pre, x.step_order ≠ some st.order) →
      lookupDetail (some e) st = some d) := by
  have hlk : lookupDetail (some e) st =
      ds.find? (fun d => d.step_order == some st.order) := by
    simp [lookupDetail, hds]
  refine ⟨?_, ?_, ?_⟩
  · intro d hd
    rw [hlk] at hd
    refine ⟨?_, List.mem_of_find?_eq_some hd⟩
    have := List.find?_some hd
    exact eq_of_beq this
  · intro h
    have hnone : ds.find? (fun d => d.step_order == some st.order) = none := by
      rw [List.find?_eq_none]
      intro x hx
      simpa using h x hx
    have hln : lookupDetail (some e) st = none := hlk.trans hnone
    refine ⟨hln, ?_, ?_, ?_⟩ <;>
      simp [mkStepPage, mkStepPageCore, hln, txt_none, Option.bind]
  · intro pre d post hsplit hd hpre
    rw [hlk, hsplit]
    refine find?_first _ pre d post (fun x hx => ?_) (by simpa using hd)
    simpa using hpre x hx

/-- C2 witness: the step with order 1 picks up the matching detail even
though that detail sits at array index 1 behind an entry for order 2. -/
theorem C2_witness :
    lookupDetail (some extDetails) baseStep = some detailForOrder1 :=
  (C2_detail_matching basePlaybook extDetails [detailForOrder2, detailForOrder1]
      baseStep 0 rfl).2.2
    [detailForOrder2] detailForOrder1 [] rfl rfl (by decide)

/-- An early duplicate detail for step order 1. -/
def dupDetailEarly : DetailedStep :=
  { step_order := some 1
    objective := some "First duplicate"
    deep_explanation := none
    facilitator_guidance := none
    practical_example := none
    risks_and_mitigations := none
    success_metrics := none }

/-- A later duplicate detail for the same step order 1. -/
def dupDetailLate : DetailedStep :=
  { step_order := some 1
    objective := some "Second duplicate"
    deep_explanation := none
    facilitator_guidance := none
    practical_example := none
    risks_and_mitigations := none
    success_metrics := none }

/-- Extended content with two details carrying the same step_order. -/
def extDup : ExtendedPrintableContent :=
  { emptyExt with detailed_steps := some [dupDetailEarly, dupDetailLate] }

/-- C9: when detailed_steps contains more than one entry whose step_order
equals a step's order, the entry occurring earliest in the array is the
one applied; a distinct later duplicate is not the lookup result. -/
theorem C9_first_duplicate_wins (e : ExtendedPrintableContent) (st : PlaybookStep)
    (pre mid post : List DetailedStep) (d1 d2 : DetailedStep)
    (hds : e.detailed_steps = some (pre ++ d1 :: (mid ++ d2 :: post)))
    (hpre : ∀ x ∈ pre, x.step_order ≠ some st.order)
    (h1 : d1.step_order = some st.order)
    (_h2 : d2.step_order = some st.order) :
    lookupDetail (some e) st = some d1 ∧
      (d2 ≠ d1 → lookupDetail (some e) st ≠ some d2) := by
  have hlk : lookupDetail (some e) st = some d1 := by
    have : lookupDetail (some e) st =
        (pre ++ d1 :: (mid ++ d2 :: post)).find?
          (fun d => d.step_order == some st.order) := by
      simp [lookupDetail, hds]
    rw [this]
    refine find?_first _ pre d1 (mid ++ d2 :: post) (fun x hx => ?_) (by simpa using h1)
    simpa using hpre x hx
  refine ⟨hlk, ?_⟩
  intro hne hcontra
  rw [hlk] at hcontra
  exact hne (Option.some.inj hcontra).symm

/-- C9 witness: with two duplicates for order 1, the array-earlier one is
returned and the later one is not. -/
theorem C9_witness :
    lookupDetail (some extDup) baseStep = some dupDetailEarly ∧
      lookupDetail (some extDup) baseStep ≠ some dupDetailLate := by
  have h := C9_first_duplicate_wins extDup baseStep [] [] [] dupDetailEarly dupDetailLate
    rfl (by simp) rfl rfl
  exact ⟨h.1, h.2 (by decide)⟩

/-- A step whose phase field is present but holds the empty string. -/
def stepEmptyPhase : PlaybookStep :=
  { baseStep with phase := some "" }

/-- C3 counterexample: the claim says a step with phase present shows
that phase; a step whose phase is the (present) empty string shows the
positional default "Diagnose" instead of its phase value. -/
theorem C3_counterexample :
    stepEmptyPhase.phase = some "" ∧
      phaseOf stepEmptyPhase 0 = "Diagnose" ∧
      phaseOf stepEmptyPhase 0 ≠ "" := by
  refine ⟨rfl, by decide, by decide⟩

/-- C3 (amended): for steps whose phase is absent or the empty string,
the phase label is the positional default computed from the array index
- "Diagnose" at index 0, "Align" at 1, "Pilot" at 2, "Embed" at every
index at least 3 - independent of the step's order field; a step with a
non-empty phase shows that phase, and the step page displays exactly
`phaseOf`. -/
theorem C3_phase_fallback (st : PlaybookStep) (i : Nat) :
    ((st.phase = none ∨ st.phase = some "") →
      phaseOf st i =
        (if i == 0 then "Diagnose"
         else if i == 1 then "Align"
         else if i == 2 then "Pilot"
         else "Embed")) ∧
    (∀ p, st.phase = some p → p ≠ "" → phaseOf st i = p) ∧
    (∀ o, phaseOf { st with order := o } i = phaseOf st i) ∧
    (∀ pb ex, (mkStepPage pb ex st i).phaseLabel = phaseOf st i) := by
  refine ⟨?_, ?_, fun o => rfl, fun pb ex => rfl⟩
  · rintro (h | h) <;> simp [phaseOf, strTruthy, h]
  · intro p hp hne
    simp [phaseOf, strTruthy, hp, hne]

/-- C3 witness: the amended theorem applied at index 3 with an absent
phase, and at index 5 with a present non-empty phase. -/
theorem C3_witness :
    phaseOf baseStep 3 = "Embed" ∧
      phaseOf { baseStep with phase := some "Custom" } 5 = "Custom" := by
  constructor
  · exact ((C3_phase_fallback baseStep 3).1 (Or.inl rfl)).trans (by decide)
  · exact (C3_phase_fallback { baseStep with phase := some "Custom" } 5).2.1 "Custom" rfl (by decide)

/-- A record whose category contains a run of two spaces. -/
def rawCategoryPlaybook : PlaybookPdfData :=
  { basePlaybook with category := "Quarterly  Review" }

/-- Challenge analysis whose stakes text has inner double whitespace. -/
def caStakes : ChallengeAnalysis :=
  { context := none
    symptoms := none
    root_causes := none
    stakes := some "at  stake" }

/-- Extended content carrying only the whitespace-y stakes text. -/
def extStakes : ExtendedPrintableContent :=
  { emptyExt with challenge_analysis := some caStakes }

/-- C4 counterexample: the claim says every displayed free-text field,
including the category chip, is whitespace-collapsed; the cover's first
chip displays the category verbatim, with its double space intact. -/
theorem C4_counterexample :
    (PlaybookPdfDocument env0 rawCategoryPlaybook).pages.head? =
        some (PdfPage.cover (mkCover env0 rawCategoryPlaybook rawCategoryPlaybook.extended_printable)) ∧
      (mkCover env0 rawCategoryPlaybook rawCategoryPlaybook.extended_printable).chips.head? =
        some "Quarterly  Review" ∧
      collapseWs "Quarterly  Review" = "Quarterly Review" ∧
      ("Quarterly  Review" : String) ≠ "Quarterly Review" := by
  refine ⟨rfl, rfl, by decide, by decide⟩

/-- C4 (amended): fields routed through `txt` are whitespace-collapsed
and trimmed before display, and an all-whitespace value is treated as
absent and replaced by the fallback; but the category chip is displayed
verbatim, and the stakes text is displayed verbatim whenever it is a
non-empty string (present by truthiness even when all whitespace). -/
theorem C4_normalization (v fb : String) (pb : PlaybookPdfData) (env : RenderEnv)
    (e : ExtendedPrintableContent) (ca : ChallengeAnalysis) (sv : String) :
    (collapseWs v = "" → txt (some v) fb = fb) ∧
    (collapseWs v ≠ "" → txt (some v) fb = collapseWs v) ∧
    ((mkCover env pb pb.extended_printable).chips.head? = some pb.category) ∧
    (e.challenge_analysis = some ca → ca.stakes = some sv → sv ≠ "" →
      (mkSummary pb (some e)).stakes = some sv) := by
  refine ⟨?_, ?_, rfl, ?_⟩
  · intro h
    simp [txt, h]
  · intro h
    simp [txt, h]
  · intro h1 h2 h3
    simp [mkSummary, h1, h2, strTruthy, h3]

/-- C4 witness: an all-whitespace value falls back, an inner run of
whitespace collapses, and the stakes text is displayed verbatim with its
double space. -/
theorem C4_witness :
    txt (some "   ") "fallback" = "fallback" ∧
      txt (some "Deep   dive  plan") "x" = "Deep dive plan" ∧
      (mkSummary basePlaybook (some extStakes)).stakes = some "at  stake" := by
  refine ⟨?_, ?_, ?_⟩
  · exact (C4_normalization "   " "fallback" basePlaybook env0 emptyExt caStakes "x").1 (by decide)
  · exact ((C4_normalization "Deep   dive  plan" "x" basePlaybook env0 emptyExt caStakes
      "x").2.1 (by decide)).trans (by decide)
  · exact (C4_normalization "" "" basePlaybook env0 extStakes caStakes
      "at  stake").2.2.2 rfl rfl (by decide)

/-- C1 counterexample: the claim says a record with an empty sequence
yields a 6-page document; the assembled document for such a record has 5
pages (cover, summary, principles, roadmap, final). -/
theorem C1_counterexample :
    basePlaybook.sequence.length = 0 ∧
      (PlaybookPdfDocument env0 basePlaybook).pages.length = 5 ∧
      (PlaybookPdfDocument env0 basePlaybook).pages.length ≠ 6 + basePlaybook.sequence.length := by
  refine ⟨rfl, rfl, by decide⟩

/-- C1 (amended): for every PlaybookRecord input with sequence of length
N, the assembled document contains exactly 5 + N pages (cover, summary,
principles, N step pages, roadmap, final), including N = 0, which yields
a 5-page document. -/
theorem C1_page_count (env : RenderEnv) (pb : PlaybookPdfData) :
    (PlaybookPdfDocument env pb).pages.length = 5 + pb.sequence.length := by
  unfold PlaybookPdfDocument
  simp [stepPages, mapWithIndex, mapWithIndexFrom_length]
  omega

/-- A source entry with a title and URL. -/
def src0 : SourceEntry :=
  { title := some "Team dynamics study"
    url := some "https://example.org/a"
    publisher := none
    relevance_note := none }

/-- Extended content with 25 identical source entries. -/
def extSources : ExtendedPrintableContent :=
  { emptyExt with sources := some (List.replicate 25 src0) }

/-- A record carrying the 25-entry source list. -/
def pbSources : PlaybookPdfData :=
  { basePlaybook with extended_printable := some extSources }

/-- C5: the "Research Sources" heading appears somewhere in the document
exactly when extended.sources is present and non-empty; in that case the
final page renders exactly the first min(20, length) entries, each
formatted by `renderSource` (title else publisher else "Source",
followed by url else "No URL provided", with an em-dash relevance-note
suffix only when the note is truthy); when sources is absent or empty
the sources block is omitted. -/
theorem C5_sources_section (env : RenderEnv) (pb : PlaybookPdfData) :
    (("Research Sources" ∈ docHeadings (PlaybookPdfDocument env pb)) ↔
      ∃ l, pb.extended_printable.bind (fun e => e.sources) = some l ∧ l ≠ []) ∧
    (∀ l, pb.extended_printable.bind (fun e => e.sources) = some l → l ≠ [] →
      (mkFinal pb.extended_printable).sources = some ((l.take 20).map renderSource) ∧
      ((l.take 20).map renderSource).length = min 20 l.length) ∧
    ((pb.extended_printable.bind (fun e => e.sources) = none ∨
        pb.extended_printable.bind (fun e => e.sources) = some []) →
      (mkFinal pb.extended_printable).sources = none) := by
  refine ⟨mem_docHeadings_research env pb, ?_, ?_⟩
  · intro l hl hne
    have hlen : l.length > 0 := List.length_pos.mpr hne
    constructor
    · rw [mkFinal_sources_eq, hl]
      simp [hlen]
    · simp [List.length_take]
  · rintro (h | h) <;> rw [mkFinal_sources_eq, h] <;> simp

/-- C5 witness: with 25 source entries, the final page's sources block is
present and renders exactly 20 = min(20, 25) lines. -/
theorem C5_witness :
    (mkFinal pbSources.extended_printable).sources =
        some (((List.replicate 25 src0).take 20).map renderSource) ∧
      (((List.replicate 25 src0).take 20).map renderSource).length =
        min 20 (List.replicate 25 src0).length :=
  (C5_sources_section env0 pbSources).2.1 (List.replicate 25 src0) rfl (by decide)

/-- C6: pickIcon lower-cases and trims the category, scans the fixed
ordered keyword table with first-match-wins containment, and falls back
to the compass icon when no keyword matches; "Team Collaboration
Workshop" selects the collaboration (users) icon and "Quarterly Review"
the default compass icon. -/
theorem C6_pickIcon (cat : String) :
    pickIcon "Team Collaboration Workshop" = collaborationIcon ∧
    pickIcon "Quarterly Review" = compassIcon ∧
    collaborationIcon ≠ compassIcon ∧
    (TOPIC_ICONS.find? (fun kv => stringIncludes (jsTrim (jsToLower cat)) kv.1) = none →
      pickIcon cat = compassIcon) ∧
    (∀ pre k v post, TOPIC_ICONS = pre ++ (k, v) :: post →
      (∀ kv ∈ pre, stringIncludes (jsTrim (jsToLower cat)) kv.1 = false) →
      stringIncludes (jsTrim (jsToLower cat)) k = true →
      pickIcon cat = v) := by
  refine ⟨by decide, by decide, by decide, ?_, ?_⟩
  · intro h
    simp [pickIcon, h]
  · intro pre k v post hsp hpre hk
    simp only [pickIcon]
    rw [hsp, find?_first _ pre (k, v) post (fun x hx => hpre x hx) hk]

/-- C6 witness: the no-match branch of the theorem applied to a category
containing no table keyword. -/
theorem C6_witness : pickIcon "General Leadership" = compassIcon :=
  (C6_pickIcon "General Leadership").2.2.2.1 (by decide)

/-- C7: with generated_from absent the cover chips read "6-10 weeks" and
"weekly cadence"; with estimated_duration absent the duration chip reads
"45-90 min per session"; a step's Duration box resolves the step
duration, else the playbook duration, else "45-90 min"; Timing defaults
to "Week index+1" and Owner to "Session lead". -/
theorem C7_fallback_defaults (env : RenderEnv) (pb : PlaybookPdfData)
    (ex : Option ExtendedPrintableContent) (st : PlaybookStep) (i : Nat) :
    (pb.generated_from = none →
      (mkCover env pb pb.extended_printable).chips[1]? = some "6-10 weeks" ∧
      (mkCover env pb pb.extended_printable).chips[2]? = some "weekly cadence") ∧
    (pb.estimated_duration = none →
      (mkCover env pb pb.extended_printable).chips[3]? = some "45-90 min per session") ∧
    (st.intervention_duration = none → pb.estimated_duration = none →
      (mkStepPage pb ex st i).duration = "45-90 min") ∧
    (∀ ed, st.intervention_duration = none → pb.estimated_duration = some ed → ed ≠ "" →
      (mkStepPage pb ex st i).duration = ed) ∧
    (st.time_window = none → (mkStepPage pb ex st i).timing = "Week " ++ toString (i + 1)) ∧
    (st.owner = none → (mkStepPage pb ex st i).owner = "Session lead") := by
  refine ⟨?_, ?_, ?_, ?_, ?_, ?_⟩
  · intro h
    constructor <;> simp [mkCover, h, txt_none]
  · intro h
    simp [mkCover, h, txt_none]
  · intro h1 h2
    simp [mkStepPage, mkStepPageCore, h1, h2, txt_none, orElseStr, strTruthy]
  · intro ed h1 h2 h3
    simp [mkStepPage, mkStepPageCore, h1, h2, txt_none, orElseStr, strTruthy, h3]
  · intro h
    simp [mkStepPage, mkStepPageCore, h, txt_none]
  · intro h
    simp [mkStepPage, mkStepPageCore, h, txt_none]

/-- C7 witness: the fallback theorem applied to a record and step with
every optional field absent. -/
theorem C7_witness :
    (mkCover env0 basePlaybook basePlaybook.extended_printable).chips[1]? = some "6-10 weeks" ∧
      (mkCover env0 basePlaybook basePlaybook.extended_printable).chips[2]? = some "weekly cadence" ∧
      (mkCover env0 basePlaybook basePlaybook.extended_printable).chips[3]? = some "45-90 min per session" ∧
      (mkStepPage basePlaybook none baseStep 0).duration = "45-90 min" ∧
      (mkStepPage basePlaybook none baseStep 0).timing = "Week 1" ∧
      (mkStepPage basePlaybook none baseStep 0).owner = "Session lead" := by
  have h := C7_fallback_defaults env0 basePlaybook none baseStep 0
  refine ⟨(h.1 rfl).1, (h.1 rfl).2, h.2.1 rfl, h.2.2.1 rfl rfl, ?_, h.2.2.2.2.2 rfl⟩
  exact (h.2.2.2.2.1 rfl).trans (by decide)

/-- C10: "default" is the first keyword entry of the ordered icon table,
so any category whose lower-cased trimmed form contains "default" gets
the compass icon, even when a later keyword such as "collaboration" also
occurs. -/
theorem C10_default_first (cat : String) :
    TOPIC_ICONS.head? = some ("default", compassIcon) ∧
    (stringIncludes (jsTrim (jsToLower cat)) "default" = true →
      pickIcon cat = compassIcon) ∧
    pickIcon "Default collaboration setup" = compassIcon ∧
    stringIncludes (jsTrim (jsToLower "Default collaboration setup")) "collaboration" = true ∧
    compassIcon ≠ collaborationIcon := by
  refine ⟨rfl, ?_, by decide, by decide, by decide⟩
  · intro h
    have hfind : TOPIC_ICONS.find? (fun kv => stringIncludes (jsTrim (jsToLower cat)) kv.1)
        = some ("default", compassIcon) :=
      find?_first _ [] ("default", compassIcon) (TOPIC_ICONS.drop 1) (by simp) h
    simp only [pickIcon]
    rw [hfind]

/-- C10 witness: the containment branch applied to another category
containing the word "default". -/
theorem C10_witness : pickIcon "The default operating cadence" = compassIcon :=
  (C10_default_first "The default operating cadence").2.1 (by decide)

/-- C8 counterexample: the claim says the generation date is the only
render-time input beyond the record; with the clock frozen (equal
`generatedOn`) but a different logo-asset read result, the two assembled
documents differ. -/
theorem C8_counterexample :
    env0.generatedOn = env1.generatedOn ∧
      PlaybookPdfDocument env0 basePlaybook ≠ PlaybookPdfDocument env1 basePlaybook := by
  constructor
  · rfl
  · intro h
    have h2 := congrArg PdfDocument.logoUri h
    revert h2
    decide

/-- C8 (amended): rendering is deterministic in the record, the frozen
generation clock and the logo-asset read: two renders of the same
PlaybookRecord whose environments agree on the generation date and on
the logo read produce identical documents. -/
theorem C8_deterministic (e1 e2 : RenderEnv) (pb : PlaybookPdfData)
    (hd : e1.generatedOn = e2.generatedOn) (hl : e1.logoFile = e2.logoFile) :
    PlaybookPdfDocument e1 pb = PlaybookPdfDocument e2 pb := by
  cases e1
  cases e2
  cases hd
  cases hl
  rfl

/-- C8 witness: the determinism theorem applied at a concrete record and
two concretely equal environments. -/
theorem C8_witness :
    PlaybookPdfDocument env0 basePlaybook =
      PlaybookPdfDocument { generatedOn := "January 1, 2026", logoFile := none } basePlaybook :=
  C8_deterministic env0 { generatedOn := "January 1, 2026", logoFile := none } basePlaybook rfl rfl

end PlaybookPdf
